import Mathlib

/-!
Shallow embedding of `extract_mrpack.py` (modrinth-mrpack-extractor):
the download pipeline (`download_file`), the filtering and dispatch logic of
`process_mrpack`, and the exit-code behaviour of `main`.

Machine-level effects are made explicit:
  * the transport layer is a parameter (`TransportResult`): either the full
    byte content arrives, or a transport error occurs (with a flag recording
    whether a partial file had already been written);
  * the best-effort `dest.unlink()` in the cleanup handler may itself fail,
    recorded by `Behavior.unlinkOk`;
  * hash functions (`hashlib.sha1` / `hashlib.sha512` hexdigests) are
    parameters of type `List Nat → String` (byte content to hex string),
    since incremental chunk hashing equals hashing the concatenation;
  * Python exceptions become the `FetchError` sum (RuntimeError for missing
    dependencies, the requests transport exceptions, ValueError for digest
    mismatches), and raising becomes `Except.error`.
-/

/-- The `downloads` field of a manifest entry: absent, a single string
(tolerated by the code), or a list of URL strings. -/
inductive DownloadsField where
  | absent : DownloadsField
  | str : String → DownloadsField
  | list : List String → DownloadsField
deriving DecidableEq, Repr

/-- One entry of `modrinth.index.json`'s `files` array, as the code reads it:
`path` (absent or a string, the empty string being falsy like absence),
`downloads`, optional `hashes` dict (algorithm name → hex digest), optional
`fileSize`, and the effective `env.server` value (`none` when the `env` dict
or its `server` key is absent or null — the dictionary plumbing
`entry.get('env', \x7b\x7d) or \x7b\x7d` then `.get('server')` collapses all
those cases to `None`). -/
structure Artifact where
  path : Option String
  downloads : DownloadsField
  hashes : Option (List (String × String))
  fileSize : Option Nat
  env : Option String
deriving DecidableEq, Repr

/-- `downloads = entry.get('downloads') or []` followed by
`if isinstance(downloads, str): downloads = [downloads]`: an absent field or a
falsy value (empty string, empty list) becomes `[]`; a non-empty string
becomes a one-element list. -/
def effectiveDownloads : DownloadsField → List String
  | .absent => []
  | .str s => if s = "" then [] else [s]
  | .list l => l

/-- Result of the streaming GET in `download_file`: either the whole body
(as the byte list written to `dest`), or an exception from `requests.get` /
`raise_for_status` / `iter_content`; `written` records whether the partial
destination file had been created by the time the error occurred. -/
inductive TransportResult where
  | ok : List Nat → TransportResult
  | err : Bool → String → TransportResult
deriving DecidableEq, Repr

/-- The environment one fetch runs against: the transport outcome and whether
the best-effort `dest.unlink()` in the cleanup handler succeeds. -/
structure Behavior where
  transport : TransportResult
  unlinkOk : Bool
deriving DecidableEq, Repr

/-- The Python exceptions `download_file` can raise: `RuntimeError` for a
missing dependency, a requests transport exception, `ValueError` for a digest
mismatch. -/
inductive FetchError where
  | runtimeError : String → FetchError
  | transportError : String → FetchError
  | valueError : String → FetchError
deriving DecidableEq, Repr

instance : DecidableEq (Except FetchError Unit) := fun a b =>
  match a, b with
  | .ok (), .ok () => isTrue rfl
  | .error e, .error f =>
    if h : e = f then isTrue (by rw [h])
    else isFalse (by intro hh; cases hh; exact h rfl)
  | .ok _, .error _ => isFalse (by intro h; cases h)
  | .error _, .ok _ => isFalse (by intro h; cases h)

/-- The observable state after one `download_file` call: whether the
destination file exists on disk, and the call's result (return `True` or an
exception). -/
structure FetchState where
  destExists : Bool
  result : Except FetchError Unit
deriving DecidableEq, Repr

/-- Python's `str.lower()` as used on hex digest strings (ASCII): lowercase
every character. -/
def lowerStr (s : String) : String := String.mk (s.data.map Char.toLower)

/-- The hash-verification block of `download_file` (lines 130-138): check
`sha1` first, then `sha512`; digests compared after `.lower()` on both sides;
a mismatch raises `ValueError` with the algorithm, expected and actual values
in the message.  `destName` stands for the `dest` path interpolated into the
message. -/
def verifyDigests (sha1 sha512 : List Nat → String) (destName : String)
    (expected : List (String × String)) (content : List Nat) :
    Except FetchError Unit :=
  let sha512Check : Except FetchError Unit :=
    match expected.lookup "sha512" with
    | some e =>
      if lowerStr (sha512 content) = lowerStr e then .ok ()
      else .error (.valueError
        ("SHA512 mismatch for " ++ destName ++ ": expected " ++ e ++
          ", got " ++ sha512 content))
    | none => .ok ()
  match expected.lookup "sha1" with
  | some e =>
    if lowerStr (sha1 content) = lowerStr e then sha512Check
    else .error (.valueError
      ("SHA1 mismatch for " ++ destName ++ ": expected " ++ e ++
        ", got " ++ sha1 content))
  | none => sha512Check

/-- `download_file(url, dest, expected_hashes, position, total_size)`.
Checks the optional dependencies first (RuntimeError when absent, before any
file is touched); then streams the body to `dest` while hashing; on any
exception during the transfer, best-effort deletes the partial file and
re-raises the transport error (a failing unlink is swallowed); after a
complete transfer, verifies digests — note the verification block sits
*outside* the cleanup `try`, so a digest-mismatch `ValueError` leaves the
fully written file on disk.  An empty `expected_hashes` dict is falsy in
Python, so it disables verification exactly like `None`. -/
def download_file (requestsPresent tqdmPresent : Bool)
    (sha1 sha512 : List Nat → String) (destName : String)
    (expected : Option (List (String × String))) (b : Behavior) : FetchState :=
  if !requestsPresent then
    ⟨false, .error (.runtimeError
      "requests library is required to download files. Install with: pip install -r requirements.txt")⟩
  else if !tqdmPresent then
    ⟨false, .error (.runtimeError
      "tqdm is required for progress bars. Install with: pip install -r requirements.txt")⟩
  else
    match b.transport with
    | .err written msg =>
      ⟨written && !b.unlinkOk, .error (.transportError msg)⟩
    | .ok content =>
      match expected with
      | none => ⟨true, .ok ()⟩
      | some l =>
        if l.isEmpty then ⟨true, .ok ()⟩
        else ⟨true, verifyDigests sha1 sha512 destName l content⟩

example :
    (download_file true true (fun _ => "aa") (fun _ => "zz") "m.jar"
      (some [("sha1", "AA")]) ⟨.ok [1, 2], true⟩) = ⟨true, .ok ()⟩ := by
  decide

example :
    (download_file true true (fun _ => "aa") (fun _ => "zz") "m.jar"
      (some [("sha1", "bb")]) ⟨.ok [1, 2], true⟩).destExists = true := by
  decide

/-- The `--server-files-only` filter predicate (lines 188-195): the effective
`env.server` value defaults to `'unknown'` when absent, and the entry is kept
iff that value is `required`, `optional` or `unknown`.  When the mode is off
every entry is kept. -/
def keepEntry (serverFilesOnly : Bool) (a : Artifact) : Bool :=
  if serverFilesOnly then
    let se := a.env.getD "unknown"
    se == "required" || se == "optional" || se == "unknown"
  else true

/-- `files_to_download` (lines 186-196): the manifest artifact list after the
optional server filter. -/
def filterFiles (serverFilesOnly : Bool) (files : List Artifact) :
    List Artifact :=
  files.filter (keepEntry serverFilesOnly)

/-- The per-entry decision of the scheduling loop (lines 215-234): skip for a
missing/empty `path`, skip for a missing/empty download URL list, or schedule
with the first URL, the verbatim path, and the expected-hash dict (passed only
when `--verify-hashes` is on). -/
inductive Dispatch where
  | skipNoPath : Dispatch
  | skipNoUrl : Dispatch
  | scheduled : String → String → Option (List (String × String)) → Dispatch
deriving DecidableEq, Repr

/-- One iteration of the scheduling loop body for a single entry. -/
def dispatchEntry (verifyHashes : Bool) (a : Artifact) : Dispatch :=
  match a.path with
  | none => .skipNoPath
  | some p =>
    if p = "" then .skipNoPath
    else
      match effectiveDownloads a.downloads with
      | [] => .skipNoUrl
      | url :: _ => .scheduled url p (if verifyHashes then a.hashes else none)

/-- A task submitted to the thread pool: its 1-based input index (the `idx` of
`enumerate(files_to_download, start=1)`), its verbatim relative path, the
first URL, and the expected hashes handed to `download_file`. -/
structure TaskInfo where
  idx : Nat
  path : String
  url : String
  expected : Option (List (String × String))
deriving DecidableEq, Repr

/-- The tasks actually submitted (`ex.submit(download_file, ...)`), in input
order, starting from input index `i`. -/
def collectTasks (verifyHashes : Bool) : Nat → List Artifact → List TaskInfo
  | _, [] => []
  | i, a :: rest =>
    match dispatchEntry verifyHashes a with
    | .scheduled url p exp => ⟨i, p, url, exp⟩ :: collectTasks verifyHashes (i + 1) rest
    | _ => collectTasks verifyHashes (i + 1) rest

/-- The number of entries of the filtered list that the loop skips (prints a
skip message for) instead of submitting. -/
def countSkipped (verifyHashes : Bool) (files : List Artifact) : Nat :=
  files.countP fun a =>
    match dispatchEntry verifyHashes a with
    | .scheduled _ _ _ => false
    | _ => true

/-- The state of the future of scheduled task number `i` (position in the
submitted list): each worker thread runs `download_file` on its own task's
arguments and its own transport environment, independently of every other
task. -/
def taskState (requestsPresent tqdmPresent : Bool)
    (sha1 sha512 : List Nat → String) (tasks : List TaskInfo)
    (behaviors : Nat → Behavior) (i : Nat) : FetchState :=
  match tasks[i]? with
  | some t =>
    download_file requestsPresent tqdmPresent sha1 sha512 t.path t.expected
      (behaviors i)
  | none => ⟨false, .ok ()⟩

/-- `True` when the future returned normally (no exception). -/
def isOk : Except FetchError Unit → Bool
  | .ok _ => true
  | .error _ => false

/-- What the download phase of `process_mrpack` leaves observable: the
counters `scheduled`, `succeeded`, `failed` (lines 208-245), the number of
skipped entries, and the sequence of `(input index, result)` pairs in the
order `concurrent.futures.as_completed` yields them — the order the
per-file failure messages are printed in.  The function itself returns
`None`: no list of outcomes is built or returned. -/
structure PhaseResult where
  scheduledCount : Nat
  succeeded : Nat
  failed : Nat
  skipped : Nat
  events : List (Nat × Except FetchError Unit)
deriving DecidableEq, Repr

/-- The download phase of `process_mrpack` (lines 203-253) on an
already-filtered list: submit each dispatchable entry, then drain the futures
in completion order `order` (a permutation of the scheduled positions),
counting one success or one failure per future — an exception from one future
is caught in the loop and affects nothing but the `failed` counter and a
printed message. -/
def runPhase (requestsPresent tqdmPresent : Bool)
    (sha1 sha512 : List Nat → String) (verifyHashes : Bool)
    (files : List Artifact) (behaviors : Nat → Behavior)
    (order : List Nat) : PhaseResult :=
  let tasks := collectTasks verifyHashes 1 files
  let st := taskState requestsPresent tqdmPresent sha1 sha512 tasks behaviors
  { scheduledCount := tasks.length
    succeeded := (order.map st).countP fun s => isOk s.result
    failed := (order.map st).countP fun s => !isOk s.result
    skipped := countSkipped verifyHashes files
    events := order.map fun i => (((tasks[i]?).map TaskInfo.idx).getD 0, (st i).result) }

/-- `main` (lines 258-273) composed with `process_mrpack`: exit 2 iff
`process_mrpack` raises, which happens exactly when the archive does not exist
(`FileNotFoundError`, line 147) or is not a valid zip (`RuntimeError`, line
255).  Everything the download phase does — including `RuntimeError`s from
missing `requests`/`tqdm` raised inside worker threads — is caught per-future
inside the `as_completed` loop and never propagates, so such runs complete
and exit 0.  (The manifest is modelled as already parsed; overrides
extraction and printing carry no control flow relevant here.) -/
def runMain (archiveExists validZip requestsPresent tqdmPresent : Bool)
    (serverFilesOnly verifyHashes : Bool) (files : List Artifact)
    (sha1 sha512 : List Nat → String) (behaviors : Nat → Behavior)
    (order : List Nat) : Nat × Option PhaseResult :=
  if !archiveExists then (2, none)
  else if !validZip then (2, none)
  else
    (0, some (runPhase requestsPresent tqdmPresent sha1 sha512 verifyHashes
      (filterFiles serverFilesOnly files) behaviors order))

/-- A `pathlib` POSIX path: an absolute flag and the list of segments
(`parts` without the root). -/
structure PyPath where
  absolute : Bool
  segs : List String
deriving DecidableEq, Repr

/-- Splitting a character list on `/`, like `str.split('/')`. -/
def splitSlash : List Char → List (List Char)
  | [] => [[]]
  | c :: rest =>
    if c = '/' then [] :: splitSlash rest
    else
      match splitSlash rest with
      | [] => [[c]]
      | g :: gs => (c :: g) :: gs

/-- Parsing a path string the way `pathlib.PurePosixPath` does: leading `/`
makes it absolute; empty segments (duplicate slashes) and single-dot segments
are dropped; `..` segments are kept verbatim. -/
def parsePath (s : String) : PyPath :=
  { absolute :=
      match s.data with
      | c :: _ => c == '/'
      | [] => false
    segs := ((splitSlash s.data).map (fun g => String.mk g)).filter
      fun t => t != "" && t != "." }

/-- `Path.joinpath` semantics (line 227, `dest = outdir.joinpath(path)`): an
absolute right operand replaces the left entirely; otherwise the segments are
concatenated.  No traversal check of any kind is performed. -/
def joinpath (a b : PyPath) : PyPath :=
  if b.absolute then b else ⟨a.absolute, a.segs ++ b.segs⟩

/-- What the operating system resolves a segment list to when the file is
opened: each `..` removes the preceding segment (at the root it is a no-op). -/
def resolveSegs (l : List String) : List String :=
  l.foldl (fun acc s => if s = ".." then acc.dropLast else acc ++ [s]) []

/-- `root` is an ancestor-or-self of `p` after OS resolution: same
absoluteness and the resolved root segments lead the resolved path
segments. -/
def insideRoot (root p : PyPath) : Bool :=
  root.absolute == p.absolute &&
    (resolveSegs p.segs).take (resolveSegs root.segs).length == resolveSegs root.segs

/-- A plain dispatchable manifest entry. -/
def artifactA : Artifact :=
  ⟨some "mods/a.jar", .list ["http://example.test/a.jar"], none, none, none⟩

/-- A second plain dispatchable manifest entry. -/
def artifactB : Artifact :=
  ⟨some "mods/b.jar", .list ["http://example.test/b.jar"], none, none, none⟩

/-- A manifest entry whose `path` climbs out of the destination root. -/
def evilArtifact : Artifact :=
  ⟨some "../../etc/passwd", .str "http://example.test/e", none, none, none⟩

/-- A resolved absolute destination root, as produced by
`Path(...).expanduser().resolve()` in `main`. -/
def outdirModel : PyPath := ⟨true, ["srv", "pack"]⟩

theorem countP_comp {α : Type} (l : List α) (p : α → Bool) :
    l.countP p + l.countP (fun a => !p a) = l.length := by
  induction l with
  | nil => simp
  | cons a l ih =>
    rw [List.countP_cons, List.countP_cons]
    cases h : p a <;> simp [h] <;> omega

theorem map_range_getIdx {α β : Type} (l : List α) (g : α → β) (d : β) :
    (List.range l.length).map (fun i => ((l[i]?).map g).getD d) = l.map g := by
  induction l with
  | nil => simp
  | cons a l ih =>
    rw [List.length_cons, List.range_succ_eq_map, List.map_cons, List.map_map]
    simp only [Function.comp_def, List.getElem?_cons_succ, List.getElem?_cons_zero,
      Option.map_some', Option.getD_some, List.map_cons]
    rw [ih]

theorem collectTasks_length_skipped (v : Bool) (files : List Artifact) :
    ∀ i, (collectTasks v i files).length + countSkipped v files = files.length := by
  induction files with
  | nil => intro i; simp [collectTasks, countSkipped]
  | cons a rest ih =>
    intro i
    have hc := ih (i + 1)
    cases h : dispatchEntry v a with
    | scheduled url p exp =>
      simp [collectTasks, h, countSkipped, List.countP_cons] at hc ⊢
      omega
    | skipNoPath =>
      simp [collectTasks, h, countSkipped, List.countP_cons] at hc ⊢
      omega
    | skipNoUrl =>
      simp [collectTasks, h, countSkipped, List.countP_cons] at hc ⊢
      omega

/-- C4: on a transport error mid-stream, `download_file` deletes the
partially written destination file on a best-effort basis — the file is gone
exactly when a partial file had been written and the unlink succeeded, and a
failing unlink is swallowed: the reported error is still the underlying
transport error, never the unlink failure — and the call raises that
transport error, which the collector records as a failure. -/
theorem C4_transport_error_cleanup (sha1 sha512 : List Nat → String)
    (destName : String) (expected : Option (List (String × String)))
    (written : Bool) (msg : String) (u : Bool) :
    download_file true true sha1 sha512 destName expected
        ⟨.err written msg, u⟩ =
      ⟨written && !u, .error (.transportError msg)⟩ := rfl

/-- C7: with `--server-files-only` active, an artifact is kept iff its
effective `env.server` value is `required`, `optional` or `unknown` (an
absent tag is treated as `unknown` and therefore kept); with the mode
inactive every artifact is kept. -/
theorem C7_server_filter (sfo : Bool) (files : List Artifact) (a : Artifact) :
    (a ∈ filterFiles sfo files ↔
      a ∈ files ∧ (sfo = true →
        (a.env.getD "unknown" = "required" ∨ a.env.getD "unknown" = "optional" ∨
          a.env.getD "unknown" = "unknown")))
    ∧ (a.env = none → a.env.getD "unknown" = "unknown")
    ∧ filterFiles false files = files := by
  refine ⟨?_, ?_, ?_⟩
  · rw [filterFiles, List.mem_filter]
    cases sfo <;> simp [keepEntry, or_assoc]
  · intro h; rw [h]; rfl
  · simp [filterFiles, keepEntry]

theorem C7_server_filter_witness :
    filterFiles false [artifactA] = [artifactA] :=
  (C7_server_filter false [artifactA] artifactA).2.2

/-- C8: an entry with a missing or empty `path` is skipped with the
no-path reason; an entry with a path but no effective download URL is skipped
with the distinct no-URL reason; a non-empty string `downloads` field is
treated as a one-element URL list and dispatched; a skipped entry is never
submitted to the pool and counts as skipped (it contributes nothing to the
scheduled tasks, hence nothing to the failed counter, which only ranges over
scheduled futures). -/
theorem C8_skip_rules (v : Bool) (a : Artifact) (i : Nat)
    (rest : List Artifact) :
    (a.path = none ∨ a.path = some "" → dispatchEntry v a = .skipNoPath)
    ∧ (∀ p, a.path = some p → p ≠ "" → effectiveDownloads a.downloads = [] →
        dispatchEntry v a = .skipNoUrl)
    ∧ (∀ p s, a.path = some p → p ≠ "" → a.downloads = .str s → s ≠ "" →
        dispatchEntry v a = .scheduled s p (if v then a.hashes else none))
    ∧ (dispatchEntry v a = .skipNoPath ∨ dispatchEntry v a = .skipNoUrl →
        collectTasks v i (a :: rest) = collectTasks v (i + 1) rest ∧
          countSkipped v (a :: rest) = countSkipped v rest + 1)
    ∧ Dispatch.skipNoPath ≠ Dispatch.skipNoUrl := by
  refine ⟨?_, ?_, ?_, ?_, by decide⟩
  · rintro (h | h) <;> simp [dispatchEntry, h]
  · intro p hp hne hd
    simp [dispatchEntry, hp, hne, hd]
  · intro p s hp hne hd hs
    simp [dispatchEntry, hp, hne, hd, effectiveDownloads, hs]
  · rintro (h | h) <;>
      constructor <;>
      simp [collectTasks, h, countSkipped, List.countP_cons]

theorem C8_skip_rules_witness :
    dispatchEntry true ⟨none, .absent, none, none, none⟩ = .skipNoPath
    ∧ dispatchEntry true ⟨some "m.jar", .absent, none, none, none⟩ = .skipNoUrl
    ∧ dispatchEntry true ⟨some "m.jar", .str "http://u", none, none, none⟩ =
        .scheduled "http://u" "m.jar" none :=
  ⟨(C8_skip_rules true ⟨none, .absent, none, none, none⟩ 1 []).1 (Or.inl rfl),
   (C8_skip_rules true ⟨some "m.jar", .absent, none, none, none⟩ 1 []).2.1
     "m.jar" rfl (by decide) rfl,
   (C8_skip_rules true ⟨some "m.jar", .str "http://u", none, none, none⟩
     1 []).2.2.1 "m.jar" "http://u" rfl (by decide) rfl (by decide)⟩

theorem foldl_resolve_no_parent (b : List String) :
    ∀ acc : List String, (∀ s ∈ b, s ≠ "..") →
      b.foldl (fun acc s => if s = ".." then acc.dropLast else acc ++ [s]) acc =
        acc ++ b := by
  induction b with
  | nil => intro acc _; simp
  | cons s b ih =>
    intro acc h
    simp only [List.foldl_cons]
    rw [if_neg (h s (by simp))]
    rw [ih _ (fun t ht => h t (by simp [ht]))]
    simp

/-- C5: once the futures are drained (the completion order is a permutation
of the scheduled positions), succeeded plus failed equals the scheduled
count, and the scheduled count plus the number of skipped entries equals the
length of the filtered input list the phase was given. -/
theorem C5_count_invariants (rp tp : Bool) (s1 s512 : List Nat → String)
    (v : Bool) (files : List Artifact) (behaviors : Nat → Behavior)
    (order : List Nat)
    (h : order.Perm (List.range (collectTasks v 1 files).length)) :
    (runPhase rp tp s1 s512 v files behaviors order).succeeded +
        (runPhase rp tp s1 s512 v files behaviors order).failed =
      (runPhase rp tp s1 s512 v files behaviors order).scheduledCount
    ∧ (runPhase rp tp s1 s512 v files behaviors order).scheduledCount +
        (runPhase rp tp s1 s512 v files behaviors order).skipped =
      files.length := by
  constructor
  · have hh := countP_comp
      (order.map (taskState rp tp s1 s512 (collectTasks v 1 files) behaviors))
      (fun s => isOk s.result)
    rw [List.length_map, h.length_eq, List.length_range] at hh
    exact hh
  · exact collectTasks_length_skipped v files 1

theorem C5_count_invariants_witness :
    (runPhase true true (fun _ => "") (fun _ => "") false [artifactA, artifactB]
        (fun _ => ⟨.ok [], true⟩) [1, 0]).succeeded +
      (runPhase true true (fun _ => "") (fun _ => "") false [artifactA, artifactB]
        (fun _ => ⟨.ok [], true⟩) [1, 0]).failed =
      (runPhase true true (fun _ => "") (fun _ => "") false [artifactA, artifactB]
        (fun _ => ⟨.ok [], true⟩) [1, 0]).scheduledCount
    ∧ (runPhase true true (fun _ => "") (fun _ => "") false [artifactA, artifactB]
        (fun _ => ⟨.ok [], true⟩) [1, 0]).scheduledCount +
      (runPhase true true (fun _ => "") (fun _ => "") false [artifactA, artifactB]
        (fun _ => ⟨.ok [], true⟩) [1, 0]).skipped = 2 :=
  C5_count_invariants true true (fun _ => "") (fun _ => "") false
    [artifactA, artifactB] (fun _ => ⟨.ok [], true⟩) [1, 0] (by decide)

/-- C6: failure isolation and draining.  Every submitted task contributes
exactly one event before the report is finalized — the events are a
permutation of the scheduled tasks, one each — and each task's outcome is a
function of its own arguments and its own transport environment only:
changing the behaviour (for example forcing a transport failure) of task `i`
leaves the outcome of every other task unchanged. -/
theorem C6_failure_isolation (rp tp : Bool) (s1 s512 : List Nat → String)
    (v : Bool) (files : List Artifact) (behaviors behaviors' : Nat → Behavior)
    (order : List Nat) (i : Nat)
    (hperm : order.Perm (List.range (collectTasks v 1 files).length))
    (hagree : ∀ j, j ≠ i → behaviors j = behaviors' j) :
    ((runPhase rp tp s1 s512 v files behaviors order).events.map Prod.fst).Perm
        ((collectTasks v 1 files).map TaskInfo.idx)
    ∧ (runPhase rp tp s1 s512 v files behaviors order).events.length =
        (collectTasks v 1 files).length
    ∧ ∀ j, j ≠ i →
        taskState rp tp s1 s512 (collectTasks v 1 files) behaviors j =
          taskState rp tp s1 s512 (collectTasks v 1 files) behaviors' j := by
  refine ⟨?_, ?_, ?_⟩
  · have h1 : (runPhase rp tp s1 s512 v files behaviors order).events.map
        Prod.fst =
        order.map
          (fun j => (((collectTasks v 1 files)[j]?).map TaskInfo.idx).getD 0) := by
      simp only [runPhase, List.map_map]
      rfl
    rw [h1]
    have h2 := hperm.map
      (fun j => (((collectTasks v 1 files)[j]?).map TaskInfo.idx).getD 0)
    rwa [map_range_getIdx] at h2
  · show (order.map _).length = _
    rw [List.length_map, hperm.length_eq, List.length_range]
  · intro j hj
    rw [taskState, taskState, hagree j hj]

theorem C6_failure_isolation_witness :
    ((runPhase true true (fun _ => "") (fun _ => "") false
        [artifactA, artifactB] (fun _ => ⟨.ok [], true⟩) [1, 0]).events.map
          Prod.fst).Perm
        ((collectTasks false 1 [artifactA, artifactB]).map TaskInfo.idx)
    ∧ (runPhase true true (fun _ => "") (fun _ => "") false
        [artifactA, artifactB] (fun _ => ⟨.ok [], true⟩) [1, 0]).events.length =
        (collectTasks false 1 [artifactA, artifactB]).length
    ∧ ∀ j, j ≠ 0 →
        taskState true true (fun _ => "") (fun _ => "")
            (collectTasks false 1 [artifactA, artifactB])
            (fun _ => ⟨.ok [], true⟩) j =
          taskState true true (fun _ => "") (fun _ => "")
            (collectTasks false 1 [artifactA, artifactB])
            (fun _ => ⟨.ok [], true⟩) j :=
  C6_failure_isolation true true (fun _ => "") (fun _ => "") false
    [artifactA, artifactB] (fun _ => ⟨.ok [], true⟩) (fun _ => ⟨.ok [], true⟩)
    [1, 0] 0 (by decide) (fun _ _ => rfl)

/-- C2 counterexample: `[1, 0]` is a legal completion order for two scheduled
artifacts, and under it the outcomes are consumed (and the per-file messages
printed) in the order input-index `2` then `1` — not sorted by input index.
`process_mrpack` builds no outcome list and performs no re-sorting; its
observable per-outcome sequence follows `as_completed` order. -/
theorem C2_cex :
    [1, 0].Perm (List.range (collectTasks false 1 [artifactA, artifactB]).length)
    ∧ (runPhase true true (fun _ => "") (fun _ => "") false
        [artifactA, artifactB] (fun _ => ⟨.ok [], true⟩) [1, 0]).events.map
          Prod.fst = [2, 1]
    ∧ (collectTasks false 1 [artifactA, artifactB]).map TaskInfo.idx = [1, 2]
    ∧ ([2, 1] : List Nat) ≠ [1, 2] := by decide

/-- C2 amended: the download phase hands back only aggregate counters (the
function returns `None`, no outcome list); those counters are the same for
every completion order, while the per-outcome event sequence follows the
completion order verbatim, with no re-sorting to input order. -/
theorem C2_counts_order_invariant (rp tp : Bool) (s1 s512 : List Nat → String)
    (v : Bool) (files : List Artifact) (behaviors : Nat → Behavior)
    (order1 order2 : List Nat)
    (h1 : order1.Perm (List.range (collectTasks v 1 files).length))
    (h2 : order2.Perm (List.range (collectTasks v 1 files).length)) :
    (runPhase rp tp s1 s512 v files behaviors order1).succeeded =
        (runPhase rp tp s1 s512 v files behaviors order2).succeeded
    ∧ (runPhase rp tp s1 s512 v files behaviors order1).failed =
        (runPhase rp tp s1 s512 v files behaviors order2).failed
    ∧ (runPhase rp tp s1 s512 v files behaviors order1).scheduledCount =
        (runPhase rp tp s1 s512 v files behaviors order2).scheduledCount
    ∧ (runPhase rp tp s1 s512 v files behaviors order1).skipped =
        (runPhase rp tp s1 s512 v files behaviors order2).skipped
    ∧ (runPhase rp tp s1 s512 v files behaviors order1).events =
        order1.map fun j =>
          ((((collectTasks v 1 files)[j]?).map TaskInfo.idx).getD 0,
            (taskState rp tp s1 s512 (collectTasks v 1 files) behaviors j).result) := by
  have h12 : order1.Perm order2 := h1.trans h2.symm
  have hmap := h12.map (taskState rp tp s1 s512 (collectTasks v 1 files) behaviors)
  exact ⟨hmap.countP_eq _, hmap.countP_eq _, rfl, rfl, rfl⟩

theorem C2_counts_order_invariant_witness :
    (runPhase true true (fun _ => "") (fun _ => "") false
        [artifactA, artifactB] (fun _ => ⟨.ok [], true⟩) [1, 0]).succeeded =
      (runPhase true true (fun _ => "") (fun _ => "") false
        [artifactA, artifactB] (fun _ => ⟨.ok [], true⟩) [0, 1]).succeeded :=
  (C2_counts_order_invariant true true (fun _ => "") (fun _ => "") false
    [artifactA, artifactB] (fun _ => ⟨.ok [], true⟩) [1, 0] [0, 1]
    (by decide) (by decide)).1

/-- C3 counterexample: with the archive present and valid but the `requests`
dependency absent, the `RuntimeError` is raised inside the worker thread,
caught per-future by the `as_completed` loop, counted as one failed download,
and the run completes with exit code 0 — not the exit code 2 the claim
requires for a missing required runtime dependency. -/
theorem C3_cex :
    (runMain true true false true false false [artifactA] (fun _ => "")
        (fun _ => "") (fun _ => ⟨.ok [], true⟩) [0]).fst = 0
    ∧ ((runMain true true false true false false [artifactA] (fun _ => "")
        (fun _ => "") (fun _ => ⟨.ok [], true⟩) [0]).snd.map
          PhaseResult.failed).getD 0 = 1 := by decide

/-- C3 amended: the process exits 0 on every completed run, including runs
with per-artifact failures (of any cause, a missing runtime dependency
included, since those surface per-future); it exits 2 exactly when
`process_mrpack` raises, that is when the archive does not exist or is not a
valid zip container. -/
theorem C3_exit_codes (ae vz rp tp sfo v : Bool) (files : List Artifact)
    (s1 s512 : List Nat → String) (behaviors : Nat → Behavior)
    (order : List Nat) :
    (runMain ae vz rp tp sfo v files s1 s512 behaviors order).fst =
      if ae && vz then 0 else 2 := by
  cases ae <;> cases vz <;> simp [runMain]

/-- C1 counterexample: an artifact whose computed sha1 digest differs from the
expected one ends with status failed (a `ValueError` naming algorithm and both
digests), yet the destination file still exists on disk — the verification
block runs after the cleanup `try`/`except`, so nothing deletes the fully
written file.  This refutes both the iff (file exists, status not succeeded)
and the mismatch-specific non-existence part of the claim. -/
theorem C1_cex :
    (download_file true true (fun _ => "1111") (fun _ => "9999") "mods/a.jar"
        (some [("sha1", "2222")]) ⟨.ok [7], true⟩).destExists = true
    ∧ (download_file true true (fun _ => "1111") (fun _ => "9999") "mods/a.jar"
        (some [("sha1", "2222")]) ⟨.ok [7], true⟩).result =
      .error (.valueError
        "SHA1 mismatch for mods/a.jar: expected 2222, got 1111") := by decide

/-- C1 amended: the destination file exists after the task iff the byte
stream completed — on success, but also on a digest mismatch (the failed
verification does not remove the file); on a transport or dependency error
no file is left behind (when the best-effort unlink succeeds); a digest
mismatch fails naming the algorithm, the expected digest and the actual
digest. -/
theorem C1_file_existence (s1 s512 : List Nat → String) (n : String)
    (exp : Option (List (String × String))) (content : List Nat)
    (w : Bool) (m : String) (u : Bool) (l : List (String × String))
    (e : String) :
    (download_file true true s1 s512 n exp ⟨.ok content, u⟩).destExists = true
    ∧ (download_file true true s1 s512 n exp ⟨.err w m, u⟩).destExists =
        (w && !u)
    ∧ (download_file true true s1 s512 n exp ⟨.err w m, u⟩).result ≠ .ok ()
    ∧ (l.lookup "sha1" = some e → lowerStr (s1 content) ≠ lowerStr e →
        (download_file true true s1 s512 n (some l) ⟨.ok content, u⟩).result =
          .error (.valueError ("SHA1 mismatch for " ++ n ++ ": expected " ++
            e ++ ", got " ++ s1 content)))
    ∧ (l.lookup "sha1" = none → l.lookup "sha512" = some e →
        lowerStr (s512 content) ≠ lowerStr e →
        (download_file true true s1 s512 n (some l) ⟨.ok content, u⟩).result =
          .error (.valueError ("SHA512 mismatch for " ++ n ++ ": expected " ++
            e ++ ", got " ++ s512 content))) := by
  refine ⟨?_, rfl, by simp [download_file], ?_, ?_⟩
  · cases exp with
    | none => rfl
    | some l' =>
      by_cases hl : l'.isEmpty = true <;> simp [download_file, hl]
  · intro h1 hne
    have hl : l.isEmpty = false := by
      cases l with
      | nil => simp [List.lookup] at h1
      | cons x xs => rfl
    simp only [download_file, Bool.not_true, Bool.false_eq_true, if_false, hl,
      if_neg (by simp : ¬(false = true))]
    simp only [verifyDigests, h1, if_neg hne]
  · intro h0 h2 hne
    have hl : l.isEmpty = false := by
      cases l with
      | nil => simp [List.lookup] at h2
      | cons x xs => rfl
    simp only [download_file, Bool.not_true, Bool.false_eq_true, if_false, hl,
      if_neg (by simp : ¬(false = true))]
    simp only [verifyDigests, h0, h2, if_neg hne]

theorem C1_file_existence_witness :
    (download_file true true (fun _ => "aa") (fun _ => "zz") "f"
        (some [("sha1", "bb")]) ⟨.ok [1], true⟩).destExists = true
    ∧ (download_file true true (fun _ => "aa") (fun _ => "zz") "f"
        (some [("sha1", "bb")]) ⟨.ok [1], true⟩).result =
      .error (.valueError ("SHA1 mismatch for " ++ "f" ++ ": expected " ++
        "bb" ++ ", got " ++ "aa")) :=
  ⟨(C1_file_existence (fun _ => "aa") (fun _ => "zz") "f"
      (some [("sha1", "bb")]) [1] false "" true [("sha1", "bb")] "bb").1,
   (C1_file_existence (fun _ => "aa") (fun _ => "zz") "f"
      (some [("sha1", "bb")]) [1] false "" true [("sha1", "bb")]
      "bb").2.2.2.1 rfl (by decide)⟩

/-- C9 counterexample: an artifact whose `path` is `../../etc/passwd` is
dispatched as-is (only a falsy path is skipped; no traversal check exists),
and the destination `outdir.joinpath(path)` resolves outside the destination
root. -/
theorem C9_cex :
    dispatchEntry false evilArtifact =
      .scheduled "http://example.test/e" "../../etc/passwd" none
    ∧ insideRoot outdirModel
        (joinpath outdirModel (parsePath "../../etc/passwd")) = false := by
  decide

/-- C9 amended: the code joins the artifact's `path` verbatim onto the
destination root with no containment check.  What does hold: an artifact with
a missing or empty path is never dispatched, and a dispatched path that is
relative and free of parent-directory segments always lands inside the
destination root; a path with `..` segments or an absolute path can escape
the root. -/
theorem C9_path_containment (v : Bool) (a : Artifact) (root : PyPath)
    (p : String) :
    (a.path = none ∨ a.path = some "" →
      ∀ url q exp, dispatchEntry v a ≠ .scheduled url q exp)
    ∧ ((parsePath p).absolute = false → ".." ∉ (parsePath p).segs →
        insideRoot root (joinpath root (parsePath p)) = true) := by
  constructor
  · rintro (h | h) url q exp <;> simp [dispatchEntry, h]
  · intro habs hnp
    have hres : resolveSegs (root.segs ++ (parsePath p).segs) =
        resolveSegs root.segs ++ (parsePath p).segs := by
      rw [resolveSegs, List.foldl_append]
      exact foldl_resolve_no_parent (parsePath p).segs _
        (fun s hs heq => hnp (heq ▸ hs))
    rw [joinpath, if_neg (by simp [habs])]
    rw [insideRoot]
    simp [hres, List.take_left]

theorem C9_path_containment_witness :
    insideRoot outdirModel (joinpath outdirModel (parsePath "mods/x.jar")) =
      true :=
  (C9_path_containment true ⟨none, .absent, none, none, none⟩ outdirModel
    "mods/x.jar").2 (by decide) (by decide)

/-- C10: a digest-mismatch failure can occur only when verification is on and
effective.  With `--verify-hashes` off the dispatcher passes `None` as the
expected-hash set; with `None` expected hashes `download_file` can never
raise a digest-mismatch `ValueError`; when it does raise one, the expected
set was non-empty and contained a `sha1` or `sha512` key whose value differs
(case-insensitively) from the digest of the received content; and when the
`sha1`/`sha512` keys are absent or match, any other algorithm key (say
`md5`) is never accumulated or compared and the download succeeds. -/
theorem C10_mismatch_requires_verification (rp tp : Bool)
    (s1 s512 : List Nat → String) (n : String) (b : Behavior)
    (l : List (String × String)) (content : List Nat) (a : Artifact) :
    (∀ url p exp, dispatchEntry false a = .scheduled url p exp → exp = none)
    ∧ (∀ msg, (download_file rp tp s1 s512 n none b).result ≠
        .error (.valueError msg))
    ∧ (∀ msg, (download_file rp tp s1 s512 n (some l) b).result =
        .error (.valueError msg) →
        l ≠ [] ∧ ∃ c, b.transport = .ok c ∧
          ((∃ e, l.lookup "sha1" = some e ∧ lowerStr (s1 c) ≠ lowerStr e) ∨
           (∃ e, l.lookup "sha512" = some e ∧ lowerStr (s512 c) ≠ lowerStr e)))
    ∧ (rp = true → tp = true → b.transport = .ok content →
        (∀ e, l.lookup "sha1" = some e → lowerStr (s1 content) = lowerStr e) →
        (∀ e, l.lookup "sha512" = some e →
          lowerStr (s512 content) = lowerStr e) →
        (download_file rp tp s1 s512 n (some l) b).result = .ok ()) := by
  refine ⟨?_, ?_, ?_, ?_⟩
  · intro url p exp h
    rcases a with ⟨pa, d, hs, fs, env⟩
    cases pa with
    | none => simp [dispatchEntry] at h
    | some q =>
      by_cases hp : q = ""
      · simp [dispatchEntry, hp] at h
      · cases hd : effectiveDownloads d with
        | nil => simp [dispatchEntry, hp, hd] at h
        | cons u' rest =>
          simp [dispatchEntry, hp, hd] at h
          exact h.2.2.symm
  · intro msg h
    rcases b with ⟨t, u⟩
    cases rp <;> cases tp <;> cases t <;> simp [download_file] at h
  · intro msg h
    rcases b with ⟨t, u⟩
    cases rp with
    | false => simp [download_file] at h
    | true =>
      cases tp with
      | false => simp [download_file] at h
      | true =>
        cases t with
        | err w m => simp [download_file] at h
        | ok c =>
          by_cases hl : l.isEmpty = true
          · simp [download_file, hl] at h
          · refine ⟨fun hnil => hl (by rw [hnil]; rfl), c, rfl, ?_⟩
            simp only [download_file, Bool.not_true, Bool.false_eq_true,
              if_false, if_neg hl] at h
            rcases h1 : l.lookup "sha1" with _ | e1
            · rcases h2 : l.lookup "sha512" with _ | e2
              · simp [verifyDigests, h1, h2] at h
              · by_cases heq : lowerStr (s512 c) = lowerStr e2
                · simp [verifyDigests, h1, h2, heq] at h
                · exact Or.inr ⟨e2, rfl, heq⟩
            · by_cases heq : lowerStr (s1 c) = lowerStr e1
              · rcases h2 : l.lookup "sha512" with _ | e2
                · simp [verifyDigests, h1, h2, heq] at h
                · by_cases heq2 : lowerStr (s512 c) = lowerStr e2
                  · simp [verifyDigests, h1, h2, heq, heq2] at h
                  · exact Or.inr ⟨e2, rfl, heq2⟩
              · exact Or.inl ⟨e1, rfl, heq⟩
  · intro hrp htp ht h1 h2
    subst hrp; subst htp
    rcases b with ⟨t, u⟩
    cases t with
    | err w m => simp at ht
    | ok c =>
      have hc : c = content := by
        injection ht
      subst hc
      by_cases hl : l.isEmpty = true
      · simp [download_file, hl]
      · rcases hh1 : l.lookup "sha1" with _ | e1 <;>
          rcases hh2 : l.lookup "sha512" with _ | e2
        · simp [download_file, hl, verifyDigests, hh1, hh2]
        · simp [download_file, hl, verifyDigests, hh1, hh2, h2 e2 hh2]
        · simp [download_file, hl, verifyDigests, hh1, hh2, h1 e1 hh1]
        · simp [download_file, hl, verifyDigests, hh1, hh2, h1 e1 hh1,
            h2 e2 hh2]

theorem C10_mismatch_requires_verification_witness :
    (download_file true true (fun _ => "aa") (fun _ => "zz") "f"
        (some [("md5", "00"), ("sha1", "AA")]) ⟨.ok [1], true⟩).result =
      .ok () := by
  have h := (C10_mismatch_requires_verification true true (fun _ => "aa")
    (fun _ => "zz") "f" ⟨.ok [1], true⟩ [("md5", "00"), ("sha1", "AA")] [1]
    artifactA).2.2.2
  apply h rfl rfl rfl
  · intro e he
    have hv : (List.lookup "sha1" [("md5", "00"), ("sha1", "AA")] :
        Option String) = some "AA" := by decide
    rw [hv] at he
    injection he with he'
    rw [← he']
    decide
  · intro e he
    have hv : (List.lookup "sha512" [("md5", "00"), ("sha1", "AA")] :
        Option String) = none := by decide
    rw [hv] at he
    exact Option.noConfusion he
